import Mathlib

/-!
Verification of the SwiftKYC frontend (`swiftkyc/app/static/app.js`).

The development shallowly embeds the client-side wizard logic:
JavaScript truthiness and string helpers, the pure decision functions of
the individual views (`renderCreateSession` validation, the document
upload outcome of `renderUploadDocument`, the selfie submission of
`renderSelfieUpload`, the moderation action set of `renderAdminDetail`,
the filter range of `getCurrentFilters`), and an event-level state
machine covering view transitions and the camera stream lifecycle
(`stopActiveStream`, `stopLocalCamera`, `setupCameraCapture`,
`startCamera`).
-/

namespace SwiftKYC

/-! ## JavaScript primitives -/

/-- JavaScript truthiness of a possibly-absent string: `undefined`/`null`
and the empty string are falsy, every other string is truthy. -/
def jsTruthy : Option String → Bool
  | none => false
  | some s => !s.isEmpty

/-- The JavaScript `a || b` operator on possibly-absent strings: yields
`a` when `a` is truthy, otherwise `b`. -/
def jsOr (a b : Option String) : Option String :=
  if jsTruthy a then a else b

/-- Whitespace as recognized by JS `trim`/`parseInt` (ASCII fragment). -/
def jsIsSpace (c : Char) : Bool :=
  c = ' ' || c = '\t' || c = '\n' || c = '\r'

/-- JavaScript `String.prototype.trim()`. -/
def jsTrim (s : String) : String :=
  ⟨(s.data.dropWhile jsIsSpace).reverse.dropWhile jsIsSpace |>.reverse⟩

/-- Value of a list of decimal digit characters. -/
def digitsToNat (l : List Char) : Nat :=
  l.foldl (fun acc c => acc * 10 + (c.toNat - 48)) 0

/-- Longest decimal-digit prefix of a character list, as a number;
`none` when the list does not start with a digit. -/
def leadingDigits (l : List Char) : Option Nat :=
  match l.takeWhile Char.isDigit with
  | [] => none
  | ds => some (digitsToNat ds)

/-- JavaScript `parseInt(s, 10)`: skip leading whitespace, read an
optional sign and then the longest run of decimal digits, ignoring any
trailing characters; `NaN` (here `none`) when no digit is found. -/
def parseIntJs (s : String) : Option Int :=
  match s.data.dropWhile jsIsSpace with
  | '-' :: rest => (leadingDigits rest).map (fun n => -(n : Int))
  | '+' :: rest => (leadingDigits rest).map (fun n => (n : Int))
  | l => (leadingDigits l).map (fun n => (n : Int))

/-- The test of the regex `/^\d{10}$/` used for the mobile field:
exactly ten decimal digits. -/
def regexTenDigits (s : String) : Bool :=
  s.length = 10 && s.data.all Char.isDigit

/-! ## Create-session view (`renderCreateSession`) -/

/-- The client-side session fields of the `state` object in `app.js`,
together with the persisted `localStorage` key `swiftkyc_session`. -/
structure ClientSession where
  sessionId : Option String
  persisted : Option String
  name : Option String
  mobile : Option String
  age : Option Int
  documentType : Option String
  documentNumber : Option String
deriving Repr, DecidableEq

/-- Whether the create-session submit handler reaches the network call:
`if (!name || !/^\d{10}$/.test(mobile)) return ...;`
`if (Number.isNaN(age) || age < 18) return ...;` where
`name`/`mobile` are trimmed inputs and `age = parseInt(rawAge, 10)`. -/
def createSessionSends (name mobile ageStr : String) : Bool :=
  if (jsTrim name).isEmpty || !regexTenDigits (jsTrim mobile) then false
  else match parseIntJs ageStr with
    | none => false
    | some a => decide (18 ≤ a)

/-- The create-session response body; `app.js` probes the fields
`session_id`, `sessionId` and `id` in that order. -/
structure CreateResp where
  session_id : Option String
  sessionId : Option String
  id : Option String
deriving Repr, DecidableEq

/-- The chain `body.session_id || body.sessionId || body.id`, after which the handler
throws when the result is falsy — so only a truthy (non-empty)
identifier is extracted. -/
def extractSid (b : CreateResp) : Option String :=
  let sid := jsOr b.session_id (jsOr b.sessionId b.id)
  if jsTruthy sid then sid else none

/-- Effect of one create-session submission on the client state.
`resp = none` models a request error (`apiFetch` threw, handler catch).
On a body without a truthy session id the handler throws before any
assignment; otherwise it stores the id in memory and in localStorage and
records name/mobile/age. -/
def createSubmit (st : ClientSession) (name mobile : String) (age : Int)
    (resp : Option CreateResp) : ClientSession :=
  match resp with
  | none => st
  | some b =>
    match extractSid b with
    | none => st
    | some sid =>
      { st with sessionId := some sid, persisted := some sid,
                name := some name, mobile := some mobile, age := some age }

/-! ## Document upload (`renderUploadDocument` upload handler) -/

/-- Parsed body of the validate-document response, with the loosely
typed fields `app.js` reads. -/
structure OcrData where
  next_step : Option String
  nextStep : Option String
  reason : Option String
  detail : Option String
  storage_url : Option String
deriving Repr, DecidableEq

/-- The assignment `const nextStep = data.next_step || data.nextStep;`. -/
def nextStepDirective (d : OcrData) : Option String :=
  jsOr d.next_step d.nextStep

/-- Message of the non-success branch:
`(data && (data.reason || data.detail)) || "OCR validation failed"`. -/
def ocrFailMsg (d : OcrData) : String :=
  (jsOr (jsOr d.reason d.detail) (some "OCR validation failed")).getD ""

/-- Message of the HTTP-success, non-`SELFIE` branch:
`data.reason || "OCR did not match. Please re-upload a clearer image."`. -/
def ocrMismatchMsg (d : OcrData) : String :=
  (jsOr d.reason (some "OCR did not match. Please re-upload a clearer image.")).getD ""

/-- Storage note of the success branch: `data.storage_url || "uploaded"`. -/
def ocrStorageNote (d : OcrData) : String :=
  (jsOr d.storage_url (some "uploaded")).getD ""

/-- The wizard views rendered by `app.js` (each `render*`/`showHome`
function, plus the OCR progress template shown while a document upload
is outstanding). -/
inductive View where
  | home
  | createSession
  | selectDocument
  | enterDocNumber
  | uploadDocument
  | ocrProgress
  | selfieUpload
  | statusPage
  | adminList
deriving Repr, DecidableEq

/-- What the upload handler does once the validate-document response has
arrived: either present manual actions (with their navigation targets)
and no timer, or show a message and schedule an automatic re-render of
the upload view after a fixed delay. -/
inductive DocOutcome where
  | offerActions (proceedTarget retryTarget : View) (storageNote : String)
  | autoRetry (delayMs : Nat) (message : String)
deriving Repr, DecidableEq

/-- Outcome of a document upload attempt, from the HTTP success flag
and parsed body of the response: non-success → message and 1200 ms retry;
success with `next_step === "SELFIE"` → "Proceed to Selfie" /
"Retry Upload" actions; any other success → message and 1200 ms retry. -/
def docUploadOutcome (ok : Bool) (d : OcrData) : DocOutcome :=
  if !ok then
    .autoRetry 1200 ("OCR failed: " ++ ocrFailMsg d)
  else if nextStepDirective d = some "SELFIE" then
    .offerActions .selfieUpload .uploadDocument (ocrStorageNote d)
  else
    .autoRetry 1200 (ocrMismatchMsg d)

/-! ## Selfie upload (`renderSelfieUpload` upload handler) -/

/-- Result of a click on the selfie upload button. -/
inductive SelfieOutcome where
  | noCall (message : String)
  | advanceToStatus
  | stayWithMsg (message : String)
deriving Repr, DecidableEq

/-- The selfie submit handler: precondition checks on the captured blob
and session id, then a fetch whose body (`d`) is never inspected — only
`res.ok` decides between advancing to the status page and staying. -/
def selfieSubmit (captured : Bool) (sid : Option String) (ok : Bool)
    (d : OcrData) (errText : Option String) : SelfieOutcome :=
  if !captured then .noCall "Capture a selfie first."
  else if !jsTruthy sid then .noCall "Session missing."
  else if ok then .advanceToStatus
  else .stayWithMsg ("Selfie upload failed: " ++
    ((jsOr errText (some "Upload failed")).getD ""))

/-! ## Moderation detail view (`renderAdminDetail` action bar) -/

/-- Elements the action bar of the admin detail modal can contain. -/
inductive AdminAction where
  | approvedBadge
  | approveBtn
  | rejectBtn
deriving Repr, DecidableEq

/-- The action bar built from the status of the record, mirroring the
four-branch `if`/`else if` chain of `renderAdminDetail`. -/
def adminActions (status : String) : List AdminAction :=
  if status = "APPROVED" then [.approvedBadge, .rejectBtn]
  else if status = "REJECTED" then [.approveBtn]
  else if status = "IN_PROGRESS" || status = "KYC_CHECK" then [.approveBtn, .rejectBtn]
  else [.approveBtn, .rejectBtn]

/-! ## Calendar arithmetic (semantics of `Date.UTC` / `toISOString`)

`getCurrentFilters` builds its timestamp bounds with
`new Date(Date.UTC(y, m, d, ...)).toISOString()`. We model the ECMAScript
date semantics: a civil date is converted to a day count since the Unix
epoch, and `toISOString` converts the millisecond timestamp back to a
civil date and formats it. -/

/-- Gregorian leap year. -/
def isLeap (y : Nat) : Bool :=
  y % 4 = 0 && (y % 100 ≠ 0 || y % 400 = 0)

/-- Number of days of month `m` (1–12) of year `y`. -/
def daysInMonth (y m : Nat) : Nat :=
  if m = 2 then (if isLeap y then 29 else 28)
  else if m = 4 || m = 6 || m = 9 || m = 11 then 30
  else 31

/-- Day count of a civil date within one 400-year era: `yoe` is the
March-shifted year of era (0–399), `m` the calendar month (1–12). -/
def innerRata (yoe m d : Nat) : Nat :=
  let mp := if m ≤ 2 then m + 9 else m - 3
  let doy := (153 * mp + 2) / 5 + (d - 1)
  yoe * 365 + yoe / 4 - yoe / 100 + doy

/-- Days of civil date `(y, m, d)` counted from 0000-03-01 of the
proleptic Gregorian calendar (valid for `y ≥ 1`); the Unix epoch
1970-01-01 is day 719468. -/
def rataDie (y m d : Nat) : Nat :=
  let ys := if m ≤ 2 then y - 1 else y
  (ys / 400) * 146097 + innerRata (ys % 400) m d

/-- Day-of-era on which the March-shifted year `yoe` starts. -/
def yStart (yoe : Nat) : Nat := yoe * 365 + yoe / 4 - yoe / 100

/-- Length in days of the March-shifted year `yoe`; its February belongs
to the represented year `yoe + 1`, which decides the leap rule. -/
def yearLen (yoe : Nat) : Nat := 365 + (if isLeap (yoe + 1) then 1 else 0)

/-- Numerator of the year-of-era recovery formula. -/
def nfun (doe : Nat) : Nat := doe - doe / 1460 + doe / 36524 - doe / 146096

/-- Shifted year-of-era recovered from a day-of-era. -/
def yoeOfDoe (doe : Nat) : Nat := nfun doe / 365

/-- Day-of-year (March-based, 0-indexed) recovered from a day-of-era. -/
def doyOfDoe (doe : Nat) : Nat :=
  doe - (365 * yoeOfDoe doe + yoeOfDoe doe / 4 - yoeOfDoe doe / 100)

/-- March-based month index (0 = March … 11 = February) of a day-of-year. -/
def mpOfDoy (doy : Nat) : Nat := (5 * doy + 2) / 153

/-- Inverse direction within one era: from a day-of-era (0–146096) back
to the shifted year of era, calendar month and day. -/
def civilOfDoe (doe : Nat) : Nat × Nat × Nat :=
  let doy := doyOfDoe doe
  let mp := mpOfDoy doy
  (yoeOfDoe doe, (if mp < 10 then mp + 3 else mp - 9), doy - (153 * mp + 2) / 5 + 1)

/-- Civil date of a day count (inverse of `rataDie`). -/
def civilFromDays (z : Nat) : Nat × Nat × Nat :=
  match civilOfDoe (z % 146097) with
  | (yoe, m, d) => (yoe + (z / 146097) * 400 + (if m ≤ 2 then 1 else 0), m, d)

/-- Validity of a day/month pair within an era: for February the leap
rule is decided by the represented year `yoe + 1` of the era. -/
def innerValid (yoe m d : Nat) : Bool :=
  1 ≤ m && m ≤ 12 && 1 ≤ d && d ≤ daysInMonth (yoe + 1) m

/-- The recovery numerator grows by at most one per day. -/
theorem nfun_step (a : Nat) : nfun a ≤ nfun (a + 1) := by
  unfold nfun; omega

/-- Monotonicity of the recovery numerator. -/
theorem nfun_mono {a b : Nat} (h : a ≤ b) : nfun a ≤ nfun b := by
  have key : ∀ k a : Nat, nfun a ≤ nfun (a + k) := by
    intro k
    induction k with
    | zero => intro a; exact Nat.le_refl _
    | succ n ih =>
      intro a
      calc nfun a ≤ nfun (a + n) := ih a
        _ ≤ nfun (a + n + 1) := nfun_step _
  have hb : b = a + (b - a) := by omega
  rw [hb]
  exact key _ a

/-- Monotonicity of the year-of-era recovery. -/
theorem yoeOfDoe_mono {a b : Nat} (h : a ≤ b) : yoeOfDoe a ≤ yoeOfDoe b :=
  Nat.div_le_div_right (nfun_mono h)

/-- Boolean check that the year recovery is exact on the first and the
last day of each of the first `n` shifted years of an era. -/
def endpointsOk : Nat → Bool
  | 0 => true
  | y + 1 =>
    (yoeOfDoe (yStart y) == y && yoeOfDoe (yStart y + (yearLen y - 1)) == y) &&
      endpointsOk y

set_option maxRecDepth 2000 in
theorem endpointsOk_true : endpointsOk 400 = true := by decide

/-- Unpacking the endpoint check for a single year. -/
theorem endpoints_extract : ∀ n, endpointsOk n = true → ∀ y, y < n →
    yoeOfDoe (yStart y) = y ∧ yoeOfDoe (yStart y + (yearLen y - 1)) = y := by
  intro n
  induction n with
  | zero => intro _ y hy; omega
  | succ k ih =>
    intro h y hy
    rw [endpointsOk, Bool.and_eq_true, Bool.and_eq_true] at h
    rcases (show y < k ∨ y = k by omega) with h2 | h2
    · exact ih h.2 y h2
    · rw [h2]
      exact ⟨by simpa using h.1.1, by simpa using h.1.2⟩

/-- Year recovery is exact on every day of a shifted year, by squeezing
between the two verified endpoints using monotonicity. -/
theorem yoeOfDoe_eq (yoe r : Nat) (h1 : yoe < 400) (hr : r ≤ yearLen yoe - 1) :
    yoeOfDoe (yStart yoe + r) = yoe := by
  obtain ⟨h0, hend⟩ := endpoints_extract 400 endpointsOk_true yoe h1
  have hlo : yoe ≤ yoeOfDoe (yStart yoe + r) := by
    have := yoeOfDoe_mono (show yStart yoe ≤ yStart yoe + r by omega)
    omega
  have hhi : yoeOfDoe (yStart yoe + r) ≤ yoe := by
    have := yoeOfDoe_mono
      (show yStart yoe + r ≤ yStart yoe + (yearLen yoe - 1) by omega)
    omega
  omega

/-- Day-of-year recovery is exact on every day of a shifted year. -/
theorem doyOfDoe_eq (yoe r : Nat) (h1 : yoe < 400) (hr : r ≤ yearLen yoe - 1) :
    doyOfDoe (yStart yoe + r) = r := by
  unfold doyOfDoe
  rw [yoeOfDoe_eq yoe r h1 hr]
  unfold yStart
  omega

/-- Assembling `civilOfDoe` from its recovered components. -/
theorem civilOfDoe_parts (doe yoe r : Nat) (hy : yoeOfDoe doe = yoe)
    (hd : doyOfDoe doe = r) :
    civilOfDoe doe =
      (yoe, (if mpOfDoy r < 10 then mpOfDoy r + 3 else mpOfDoy r - 9),
        r - (153 * mpOfDoy r + 2) / 5 + 1) := by
  unfold civilOfDoe
  rw [hy, hd]

/-- Era-local roundtrip: `civilOfDoe` inverts `innerRata` on valid
dates, and the day-of-era stays below the era length 146097. -/
theorem innerRoundtrip (yoe m d : Nat) (h1 : yoe < 400)
    (hv : innerValid yoe m d = true) :
    innerRata yoe m d < 146097 ∧ civilOfDoe (innerRata yoe m d) = (yoe, m, d) := by
  have hv' := hv
  simp only [innerValid, Bool.and_eq_true, decide_eq_true_eq] at hv'
  obtain ⟨⟨⟨hm1, hm2⟩, hd1⟩, hd2⟩ := hv'
  have hd31 : d ≤ 31 := by
    have : daysInMonth (yoe + 1) m ≤ 31 := by
      simp only [daysInMonth]
      split
      · split <;> omega
      · split <;> omega
    omega
  interval_cases m
  -- January : mp = 10, day-of-year offset 306
  · simp only [daysInMonth] at hd2; norm_num at hd2
    have hr : innerRata yoe 1 d = yStart yoe + (306 + (d - 1)) := by
      simp only [innerRata, yStart]; norm_num
    have hb : 306 + (d - 1) ≤ yearLen yoe - 1 := by
      simp only [yearLen]; split <;> omega
    have hy := yoeOfDoe_eq yoe (306 + (d - 1)) h1 hb
    have hdoy := doyOfDoe_eq yoe (306 + (d - 1)) h1 hb
    refine ⟨by rw [hr]; unfold yStart; omega, ?_⟩
    rw [hr, civilOfDoe_parts _ yoe (306 + (d - 1)) hy hdoy]
    have hmp : mpOfDoy (306 + (d - 1)) = 10 := by unfold mpOfDoy; omega
    rw [hmp]
    norm_num
    omega
  -- February : mp = 11, day-of-year offset 337; the day bound depends
  -- on the leap rule of the represented year
  · simp only [daysInMonth] at hd2; norm_num at hd2
    have hd29 : d ≤ 29 := by
      rcases hL : isLeap (yoe + 1) <;> rw [hL] at hd2 <;> norm_num at hd2 <;> omega
    have hr : innerRata yoe 2 d = yStart yoe + (337 + (d - 1)) := by
      simp only [innerRata, yStart]; norm_num
    have hb : 337 + (d - 1) ≤ yearLen yoe - 1 := by
      unfold yearLen
      rcases hL : isLeap (yoe + 1) <;> rw [hL] at hd2 <;> norm_num at hd2 ⊢ <;> omega
    have hy := yoeOfDoe_eq yoe (337 + (d - 1)) h1 hb
    have hdoy := doyOfDoe_eq yoe (337 + (d - 1)) h1 hb
    refine ⟨by rw [hr]; unfold yStart; omega, ?_⟩
    rw [hr, civilOfDoe_parts _ yoe (337 + (d - 1)) hy hdoy]
    have hmp : mpOfDoy (337 + (d - 1)) = 11 := by unfold mpOfDoy; omega
    rw [hmp]
    norm_num
    omega
  -- March : mp = 0, day-of-year offset 0
  · simp only [daysInMonth] at hd2; norm_num at hd2
    have hr : innerRata yoe 3 d = yStart yoe + (d - 1) := by
      simp only [innerRata, yStart]; norm_num
    have hb : d - 1 ≤ yearLen yoe - 1 := by
      simp only [yearLen]; split <;> omega
    have hy := yoeOfDoe_eq yoe (d - 1) h1 hb
    have hdoy := doyOfDoe_eq yoe (d - 1) h1 hb
    refine ⟨by rw [hr]; unfold yStart; omega, ?_⟩
    rw [hr, civilOfDoe_parts _ yoe (d - 1) hy hdoy]
    have hmp : mpOfDoy (d - 1) = 0 := by unfold mpOfDoy; omega
    rw [hmp]
    norm_num
    omega
  -- April : mp = 1, offset 31
  · simp only [daysInMonth] at hd2; norm_num at hd2
    have hr : innerRata yoe 4 d = yStart yoe + (31 + (d - 1)) := by
      simp only [innerRata, yStart]; norm_num
    have hb : 31 + (d - 1) ≤ yearLen yoe - 1 := by
      simp only [yearLen]; split <;> omega
    have hy := yoeOfDoe_eq yoe (31 + (d - 1)) h1 hb
    have hdoy := doyOfDoe_eq yoe (31 + (d - 1)) h1 hb
    refine ⟨by rw [hr]; unfold yStart; omega, ?_⟩
    rw [hr, civilOfDoe_parts _ yoe (31 + (d - 1)) hy hdoy]
    have hmp : mpOfDoy (31 + (d - 1)) = 1 := by unfold mpOfDoy; omega
    rw [hmp]
    norm_num
    omega
  -- May : mp = 2, offset 61
  · simp only [daysInMonth] at hd2; norm_num at hd2
    have hr : innerRata yoe 5 d = yStart yoe + (61 + (d - 1)) := by
      simp only [innerRata, yStart]; norm_num
    have hb : 61 + (d - 1) ≤ yearLen yoe - 1 := by
      simp only [yearLen]; split <;> omega
    have hy := yoeOfDoe_eq yoe (61 + (d - 1)) h1 hb
    have hdoy := doyOfDoe_eq yoe (61 + (d - 1)) h1 hb
    refine ⟨by rw [hr]; unfold yStart; omega, ?_⟩
    rw [hr, civilOfDoe_parts _ yoe (61 + (d - 1)) hy hdoy]
    have hmp : mpOfDoy (61 + (d - 1)) = 2 := by unfold mpOfDoy; omega
    rw [hmp]
    norm_num
    omega
  -- June : mp = 3, offset 92
  · simp only [daysInMonth] at hd2; norm_num at hd2
    have hr : innerRata yoe 6 d = yStart yoe + (92 + (d - 1)) := by
      simp only [innerRata, yStart]; norm_num
    have hb : 92 + (d - 1) ≤ yearLen yoe - 1 := by
      simp only [yearLen]; split <;> omega
    have hy := yoeOfDoe_eq yoe (92 + (d - 1)) h1 hb
    have hdoy := doyOfDoe_eq yoe (92 + (d - 1)) h1 hb
    refine ⟨by rw [hr]; unfold yStart; omega, ?_⟩
    rw [hr, civilOfDoe_parts _ yoe (92 + (d - 1)) hy hdoy]
    have hmp : mpOfDoy (92 + (d - 1)) = 3 := by unfold mpOfDoy; omega
    rw [hmp]
    norm_num
    omega
  -- July : mp = 4, offset 122
  · simp only [daysInMonth] at hd2; norm_num at hd2
    have hr : innerRata yoe 7 d = yStart yoe + (122 + (d - 1)) := by
      simp only [innerRata, yStart]; norm_num
    have hb : 122 + (d - 1) ≤ yearLen yoe - 1 := by
      simp only [yearLen]; split <;> omega
    have hy := yoeOfDoe_eq yoe (122 + (d - 1)) h1 hb
    have hdoy := doyOfDoe_eq yoe (122 + (d - 1)) h1 hb
    refine ⟨by rw [hr]; unfold yStart; omega, ?_⟩
    rw [hr, civilOfDoe_parts _ yoe (122 + (d - 1)) hy hdoy]
    have hmp : mpOfDoy (122 + (d - 1)) = 4 := by unfold mpOfDoy; omega
    rw [hmp]
    norm_num
    omega
  -- August : mp = 5, offset 153
  · simp only [daysInMonth] at hd2; norm_num at hd2
    have hr : innerRata yoe 8 d = yStart yoe + (153 + (d - 1)) := by
      simp only [innerRata, yStart]; norm_num
    have hb : 153 + (d - 1) ≤ yearLen yoe - 1 := by
      simp only [yearLen]; split <;> omega
    have hy := yoeOfDoe_eq yoe (153 + (d - 1)) h1 hb
    have hdoy := doyOfDoe_eq yoe (153 + (d - 1)) h1 hb
    refine ⟨by rw [hr]; unfold yStart; omega, ?_⟩
    rw [hr, civilOfDoe_parts _ yoe (153 + (d - 1)) hy hdoy]
    have hmp : mpOfDoy (153 + (d - 1)) = 5 := by unfold mpOfDoy; omega
    rw [hmp]
    norm_num
    omega
  -- September : mp = 6, offset 184
  · simp only [daysInMonth] at hd2; norm_num at hd2
    have hr : innerRata yoe 9 d = yStart yoe + (184 + (d - 1)) := by
      simp only [innerRata, yStart]; norm_num
    have hb : 184 + (d - 1) ≤ yearLen yoe - 1 := by
      simp only [yearLen]; split <;> omega
    have hy := yoeOfDoe_eq yoe (184 + (d - 1)) h1 hb
    have hdoy := doyOfDoe_eq yoe (184 + (d - 1)) h1 hb
    refine ⟨by rw [hr]; unfold yStart; omega, ?_⟩
    rw [hr, civilOfDoe_parts _ yoe (184 + (d - 1)) hy hdoy]
    have hmp : mpOfDoy (184 + (d - 1)) = 6 := by unfold mpOfDoy; omega
    rw [hmp]
    norm_num
    omega
  -- October : mp = 7, offset 214
  · simp only [daysInMonth] at hd2; norm_num at hd2
    have hr : innerRata yoe 10 d = yStart yoe + (214 + (d - 1)) := by
      simp only [innerRata, yStart]; norm_num
    have hb : 214 + (d - 1) ≤ yearLen yoe - 1 := by
      simp only [yearLen]; split <;> omega
    have hy := yoeOfDoe_eq yoe (214 + (d - 1)) h1 hb
    have hdoy := doyOfDoe_eq yoe (214 + (d - 1)) h1 hb
    refine ⟨by rw [hr]; unfold yStart; omega, ?_⟩
    rw [hr, civilOfDoe_parts _ yoe (214 + (d - 1)) hy hdoy]
    have hmp : mpOfDoy (214 + (d - 1)) = 7 := by unfold mpOfDoy; omega
    rw [hmp]
    norm_num
    omega
  -- November : mp = 8, offset 245
  · simp only [daysInMonth] at hd2; norm_num at hd2
    have hr : innerRata yoe 11 d = yStart yoe + (245 + (d - 1)) := by
      simp only [innerRata, yStart]; norm_num
    have hb : 245 + (d - 1) ≤ yearLen yoe - 1 := by
      simp only [yearLen]; split <;> omega
    have hy := yoeOfDoe_eq yoe (245 + (d - 1)) h1 hb
    have hdoy := doyOfDoe_eq yoe (245 + (d - 1)) h1 hb
    refine ⟨by rw [hr]; unfold yStart; omega, ?_⟩
    rw [hr, civilOfDoe_parts _ yoe (245 + (d - 1)) hy hdoy]
    have hmp : mpOfDoy (245 + (d - 1)) = 8 := by unfold mpOfDoy; omega
    rw [hmp]
    norm_num
    omega
  -- December : mp = 9, offset 275
  · simp only [daysInMonth] at hd2; norm_num at hd2
    have hr : innerRata yoe 12 d = yStart yoe + (275 + (d - 1)) := by
      simp only [innerRata, yStart]; norm_num
    have hb : 275 + (d - 1) ≤ yearLen yoe - 1 := by
      simp only [yearLen]; split <;> omega
    have hy := yoeOfDoe_eq yoe (275 + (d - 1)) h1 hb
    have hdoy := doyOfDoe_eq yoe (275 + (d - 1)) h1 hb
    refine ⟨by rw [hr]; unfold yStart; omega, ?_⟩
    rw [hr, civilOfDoe_parts _ yoe (275 + (d - 1)) hy hdoy]
    have hmp : mpOfDoy (275 + (d - 1)) = 9 := by unfold mpOfDoy; omega
    rw [hmp]
    norm_num
    omega

/-- Full roundtrip: converting a valid civil date (year ≥ 1) to its day
count and back is the identity. -/
theorem civilFromDays_rataDie (y m d : Nat) (hy : 1 ≤ y) (hm1 : 1 ≤ m) (hm2 : m ≤ 12)
    (hd1 : 1 ≤ d) (hd2 : d ≤ daysInMonth y m) :
    civilFromDays (rataDie y m d) = (y, m, d) := by
  have hys : rataDie y m d =
      ((if m ≤ 2 then y - 1 else y) / 400) * 146097 +
        innerRata ((if m ≤ 2 then y - 1 else y) % 400) m d := rfl
  set ys := if m ≤ 2 then y - 1 else y with hysdef
  have hvalid : innerValid (ys % 400) m d = true := by
    simp only [innerValid, Bool.and_eq_true, decide_eq_true_eq]
    refine ⟨⟨⟨hm1, hm2⟩, hd1⟩, ?_⟩
    -- the era-local leap rule agrees with the leap rule of the real year
    have hcong : daysInMonth (ys % 400 + 1) m = daysInMonth y m := by
      simp only [daysInMonth]
      split
      · rename_i hm2'
        have hmod : (ys % 400 + 1) % 4 = y % 4 ∧ (ys % 400 + 1) % 100 = y % 100 ∧
            (ys % 400 + 1) % 400 = y % 400 := by
          have h2 : m ≤ 2 := by omega
          rw [hysdef]
          simp only [if_pos h2]
          omega
        simp only [isLeap, hmod.1, hmod.2.1, hmod.2.2]
      · rfl
    omega
  obtain ⟨hbound, hcivil⟩ := innerRoundtrip (ys % 400) m d (Nat.mod_lt _ (by omega)) hvalid
  rw [hys, civilFromDays]
  have hmod : ((ys / 400) * 146097 + innerRata (ys % 400) m d) % 146097 =
      innerRata (ys % 400) m d := by omega
  have hdiv : ((ys / 400) * 146097 + innerRata (ys % 400) m d) / 146097 = ys / 400 := by
    omega
  rw [hmod, hdiv, hcivil]
  have hyrec : ys % 400 + (ys / 400) * 400 + (if m ≤ 2 then 1 else 0) = y := by
    by_cases h2 : m ≤ 2
    · rw [hysdef]; simp only [if_pos h2]; omega
    · rw [hysdef]; simp only [if_neg h2]; omega
  show (ys % 400 + (ys / 400) * 400 + (if m ≤ 2 then 1 else 0), m, d) = (y, m, d)
  rw [hyrec]

/-! ## `Date.UTC`, `toISOString` and the admin filter range -/

/-- The decimal digit character for `k` (0–9). -/
def digitChar (k : Nat) : Char := Char.ofNat (48 + k)

/-- Two-digit zero-padded decimal rendering (for values below 100). -/
def pad2L (n : Nat) : List Char := [digitChar (n / 10 % 10), digitChar (n % 10)]

/-- Three-digit zero-padded decimal rendering (for values below 1000). -/
def pad3L (n : Nat) : List Char :=
  [digitChar (n / 100 % 10), digitChar (n / 10 % 10), digitChar (n % 10)]

/-- Four-digit zero-padded decimal rendering (for values below 10000). -/
def pad4L (n : Nat) : List Char :=
  [digitChar (n / 1000 % 10), digitChar (n / 100 % 10),
   digitChar (n / 10 % 10), digitChar (n % 10)]

/-- Model of `Date.UTC(y, m0, d, h, mi, s)` as milliseconds since the Unix epoch,
for in-range field values (`m0` is the 0-based JS month). Mirrors the
ECMAScript legacy rule mapping years 0–99 to 1900–1999. -/
def jsDateUTC (y m0 d h mi s : Nat) : Int :=
  let yr := if y ≤ 99 then 1900 + y else y
  ((rataDie yr (m0 + 1) d : Int) - 719468) * 86400000
    + (((h * 60 + mi) * 60 + s) * 1000 : Nat)

/-- Model of `Date.prototype.toISOString()` for timestamps whose year lies in
1–9999 (the four-digit format; JS switches to an expanded form
outside). -/
def toISOString (ms : Int) : String :=
  let total := ms + 719468 * 86400000
  let day := (total / 86400000).toNat
  let t := (total % 86400000).toNat
  match civilFromDays day with
  | (y, m, d) =>
    ⟨pad4L y ++ '-' :: pad2L m ++ '-' :: pad2L d ++
      'T' :: pad2L (t / 3600000) ++ ':' :: pad2L (t / 60000 % 60) ++
      ':' :: pad2L (t / 1000 % 60) ++ '.' :: pad3L (t % 1000) ++ ['Z']⟩

/-- Splitting a character list at `'-'` separators (semantics of the JS
`String.prototype.split('-')`). -/
def splitDash : List Char → List (List Char)
  | [] => [[]]
  | c :: rest =>
    if c = '-' then [] :: splitDash rest
    else
      match splitDash rest with
      | [] => [[c]]
      | g :: gs => (c :: g) :: gs

/-- Model of the JS split on a string with the dash separator. -/
def jsSplitDash (s : String) : List String :=
  (splitDash s.data).map String.mk

/-- JS `Number(str)` restricted to nonempty all-digit strings (the only
shape the `YYYY-MM-DD` parts of a date input can take); other strings are
left unparsed. -/
def jsNumberNat (s : String) : Option Nat :=
  if s.data.isEmpty then none
  else if s.data.all Char.isDigit then some (digitsToNat s.data) else none

/-- The query-parameter set built by `getCurrentFilters`. -/
structure AdminFilters where
  status : Option String
  doc_type : Option String
  created_from : Option String
  created_to : Option String
deriving Repr, DecidableEq

/-- Model of `getCurrentFilters` from the three filter inputs: status and
doc-type pass through when truthy; a selected date `YYYY-MM-DD` is split
on `'-'` and turned into the UTC range
`[Date.UTC(y,m-1,d,0,0,0), Date.UTC(y,m-1,d,23,59,59)]`, both rendered
with `toISOString`. -/
def getCurrentFilters (statusVal docVal dateVal : Option String) : AdminFilters :=
  let fromTo : Option String × Option String :=
    match dateVal with
    | none => (none, none)
    | some v =>
      if v.isEmpty then (none, none)
      else
        let parts := jsSplitDash v
        if parts.length = 3 then
          match jsNumberNat (parts.getD 0 ""), jsNumberNat (parts.getD 1 ""),
              jsNumberNat (parts.getD 2 "") with
          | some y, some mn, some d =>
            (some (toISOString (jsDateUTC y (mn - 1) d 0 0 0)),
             some (toISOString (jsDateUTC y (mn - 1) d 23 59 59)))
          | _, _, _ => (none, none)
        else (none, none)
  { status := if jsTruthy statusVal then statusVal else none
    doc_type := if jsTruthy docVal then docVal else none
    created_from := fromTo.1
    created_to := fromTo.2 }

/-- The `YYYY-MM-DD` value produced by a date input for a given date. -/
def fmtDateInput (y m d : Nat) : String :=
  ⟨pad4L y ++ '-' :: pad2L m ++ '-' :: pad2L d⟩



theorem digitChar_isDigit (k : Nat) (h : k < 10) : (digitChar k).isDigit = true := by
  interval_cases k <;> decide

theorem digitChar_ne_dash (k : Nat) (h : k < 10) : digitChar k ≠ '-' := by
  interval_cases k <;> decide

theorem digitChar_toNat (k : Nat) (h : k < 10) : (digitChar k).toNat = 48 + k := by
  interval_cases k <;> decide

theorem splitDash_no_dash (l : List Char) (h : '-' ∉ l) : splitDash l = [l] := by
  induction l with
  | nil => rfl
  | cons c rest ih =>
    have hc : c ≠ '-' := fun hc => h (hc ▸ List.mem_cons_self c rest)
    have hr : '-' ∉ rest := fun hr => h (List.mem_cons_of_mem c hr)
    simp only [splitDash, if_neg hc, ih hr]

theorem splitDash_append (a rest : List Char) (h : '-' ∉ a) :
    splitDash (a ++ '-' :: rest) = a :: splitDash rest := by
  induction a with
  | nil => simp [splitDash]
  | cons c tl ih =>
    have hc : c ≠ '-' := fun hc => h (hc ▸ List.mem_cons_self c tl)
    have ht : '-' ∉ tl := fun hr => h (List.mem_cons_of_mem c hr)
    rw [List.cons_append, splitDash, if_neg hc, ih ht]

theorem pad2L_no_dash (n : Nat) : '-' ∉ pad2L n := by
  simp only [pad2L, List.mem_cons, List.not_mem_nil, or_false]
  push_neg
  constructor
  · exact fun h => digitChar_ne_dash _ (Nat.mod_lt _ (by omega)) h.symm
  · exact fun h => digitChar_ne_dash _ (Nat.mod_lt _ (by omega)) h.symm

theorem pad4L_no_dash (n : Nat) : '-' ∉ pad4L n := by
  simp only [pad4L, List.mem_cons, List.not_mem_nil, or_false]
  push_neg
  refine ⟨?_, ?_, ?_, ?_⟩ <;>
    exact fun h => digitChar_ne_dash _ (Nat.mod_lt _ (by omega)) h.symm

theorem digitsToNat_pad4L (n : Nat) (h : n ≤ 9999) : digitsToNat (pad4L n) = n := by
  simp only [digitsToNat, pad4L, List.foldl,
    digitChar_toNat _ (Nat.mod_lt _ (by omega : (0:Nat) < 10))]
  omega

theorem digitsToNat_pad2L (n : Nat) (h : n ≤ 99) : digitsToNat (pad2L n) = n := by
  simp only [digitsToNat, pad2L, List.foldl,
    digitChar_toNat _ (Nat.mod_lt _ (by omega : (0:Nat) < 10))]
  omega

theorem jsNumberNat_digits (c : Char) (tl : List Char)
    (hall : (c :: tl).all Char.isDigit = true) :
    jsNumberNat ⟨c :: tl⟩ = some (digitsToNat (c :: tl)) := by
  rw [jsNumberNat]
  show (if (c :: tl).isEmpty = true then none
        else if (c :: tl).all Char.isDigit = true then some (digitsToNat (c :: tl)) else none) = _
  rw [show (c :: tl).isEmpty = false from rfl]
  simp only [Bool.false_eq_true, if_false, if_pos hall]

theorem pad4L_all_digits (n : Nat) : (pad4L n).all Char.isDigit = true := by
  refine List.all_eq_true.mpr fun c hc => ?_
  simp only [pad4L, List.mem_cons, List.not_mem_nil, or_false] at hc
  rcases hc with rfl | rfl | rfl | rfl <;>
    exact digitChar_isDigit _ (Nat.mod_lt _ (by omega))

theorem pad2L_all_digits (n : Nat) : (pad2L n).all Char.isDigit = true := by
  refine List.all_eq_true.mpr fun c hc => ?_
  simp only [pad2L, List.mem_cons, List.not_mem_nil, or_false] at hc
  rcases hc with rfl | rfl <;>
    exact digitChar_isDigit _ (Nat.mod_lt _ (by omega))

theorem jsNumberNat_pad4L (n : Nat) (h : n ≤ 9999) : jsNumberNat ⟨pad4L n⟩ = some n := by
  have := jsNumberNat_digits (digitChar (n / 1000 % 10))
    [digitChar (n / 100 % 10), digitChar (n / 10 % 10), digitChar (n % 10)]
    (pad4L_all_digits n)
  rw [show pad4L n = digitChar (n / 1000 % 10) ::
    [digitChar (n / 100 % 10), digitChar (n / 10 % 10), digitChar (n % 10)] from rfl]
  rw [this]
  rw [show digitChar (n / 1000 % 10) ::
    [digitChar (n / 100 % 10), digitChar (n / 10 % 10), digitChar (n % 10)] = pad4L n from rfl]
  rw [digitsToNat_pad4L n h]

theorem jsNumberNat_pad2L (n : Nat) (h : n ≤ 99) : jsNumberNat ⟨pad2L n⟩ = some n := by
  have := jsNumberNat_digits (digitChar (n / 10 % 10)) [digitChar (n % 10)]
    (pad2L_all_digits n)
  rw [show pad2L n = digitChar (n / 10 % 10) :: [digitChar (n % 10)] from rfl]
  rw [this]
  rw [show digitChar (n / 10 % 10) :: [digitChar (n % 10)] = pad2L n from rfl]
  rw [digitsToNat_pad2L n h]

theorem jsSplitDash_fmtDateInput (y m d : Nat) :
    jsSplitDash (fmtDateInput y m d) = [⟨pad4L y⟩, ⟨pad2L m⟩, ⟨pad2L d⟩] := by
  rw [jsSplitDash, fmtDateInput]
  show (splitDash (pad4L y ++ '-' :: (pad2L m ++ '-' :: pad2L d))).map String.mk = _
  rw [splitDash_append _ _ (pad4L_no_dash y),
      splitDash_append _ _ (pad2L_no_dash m),
      splitDash_no_dash _ (pad2L_no_dash d)]
  rfl




theorem epoch_split (R T : Nat) (hT : T < 86400000) :
    ((((R : Int) - 719468) * 86400000 + (T : Int) + 719468 * 86400000) / 86400000).toNat = R ∧
    ((((R : Int) - 719468) * 86400000 + (T : Int) + 719468 * 86400000) % 86400000).toNat = T := by
  constructor <;> omega

theorem daysInMonth_le31 (y m : Nat) : daysInMonth y m ≤ 31 := by
  simp only [daysInMonth]
  split
  · split <;> omega
  · split <;> omega

theorem toISOString_jsDateUTC (y m d h mi s : Nat) (h100 : 100 ≤ y) (h9999 : y ≤ 9999)
    (hm1 : 1 ≤ m) (hm2 : m ≤ 12) (hd1 : 1 ≤ d) (hd2 : d ≤ daysInMonth y m)
    (hh : h ≤ 23) (hmi : mi ≤ 59) (hs : s ≤ 59) :
    toISOString (jsDateUTC y (m - 1) d h mi s) =
      ⟨pad4L y ++ '-' :: pad2L m ++ '-' :: pad2L d ++
        'T' :: pad2L h ++ ':' :: pad2L mi ++ ':' :: pad2L s ++ '.' :: pad3L 0 ++ ['Z']⟩ := by
  have hyr : (if y ≤ 99 then 1900 + y else y) = y := if_neg (by omega)
  have hmr : m - 1 + 1 = m := by omega
  have hT : ((h * 60 + mi) * 60 + s) * 1000 < 86400000 := by omega
  simp only [jsDateUTC, toISOString, hyr, hmr]
  rw [(epoch_split (rataDie y m d) (((h * 60 + mi) * 60 + s) * 1000) hT).1,
      (epoch_split (rataDie y m d) (((h * 60 + mi) * 60 + s) * 1000) hT).2,
      civilFromDays_rataDie y m d (by omega) hm1 hm2 hd1 hd2]
  have e1 : ((h * 60 + mi) * 60 + s) * 1000 / 3600000 = h := by omega
  have e2 : ((h * 60 + mi) * 60 + s) * 1000 / 60000 % 60 = mi := by omega
  have e3 : ((h * 60 + mi) * 60 + s) * 1000 / 1000 % 60 = s := by omega
  have e4 : ((h * 60 + mi) * 60 + s) * 1000 % 1000 = 0 := by omega
  rw [e1, e2, e3, e4]


theorem fmtDateInput_not_empty (y m d : Nat) : (fmtDateInput y m d).isEmpty = false := by
  rw [Bool.eq_false_iff]
  intro hcon
  have hstr := (String.isEmpty_iff _).mp hcon
  have hdata := congrArg String.data hstr
  simp [fmtDateInput, pad4L] at hdata

theorem getCurrentFilters_dateRange (sv dvv : Option String) (y m d : Nat)
    (h100 : 100 ≤ y) (h9999 : y ≤ 9999) (hm1 : 1 ≤ m) (hm2 : m ≤ 12)
    (hd1 : 1 ≤ d) (hd2 : d ≤ daysInMonth y m) :
    (getCurrentFilters sv dvv (some (fmtDateInput y m d))).created_from
        = some (fmtDateInput y m d ++ "T00:00:00.000Z") ∧
    (getCurrentFilters sv dvv (some (fmtDateInput y m d))).created_to
        = some (fmtDateInput y m d ++ "T23:59:59.000Z") := by
  have hsplit := jsSplitDash_fmtDateInput y m d
  have hne0 : (fmtDateInput y m d).isEmpty = false := fmtDateInput_not_empty y m d
  have hy' := jsNumberNat_pad4L y (by omega)
  have hm' := jsNumberNat_pad2L m (by omega)
  have hd' : jsNumberNat ⟨pad2L d⟩ = some d :=
    jsNumberNat_pad2L d (by have := daysInMonth_le31 y m; omega)
  have hiso0 := toISOString_jsDateUTC y m d 0 0 0 h100 h9999 hm1 hm2 hd1 hd2
    (by omega) (by omega) (by omega)
  have hiso1 := toISOString_jsDateUTC y m d 23 59 59 h100 h9999 hm1 hm2 hd1 hd2
    (by omega) (by omega) (by omega)
  have hfrom : (⟨pad4L y ++ '-' :: pad2L m ++ '-' :: pad2L d ++
        'T' :: pad2L 0 ++ ':' :: pad2L 0 ++ ':' :: pad2L 0 ++ '.' :: pad3L 0 ++ ['Z']⟩ : String) =
      fmtDateInput y m d ++ "T00:00:00.000Z" := by
    apply String.ext
    rw [String.data_append]
    show _ = (pad4L y ++ '-' :: pad2L m ++ '-' :: pad2L d) ++ "T00:00:00.000Z".data
    simp [pad2L, pad3L, show digitChar 0 = '0' from by decide]
  have hto : (⟨pad4L y ++ '-' :: pad2L m ++ '-' :: pad2L d ++
        'T' :: pad2L 23 ++ ':' :: pad2L 59 ++ ':' :: pad2L 59 ++ '.' :: pad3L 0 ++ ['Z']⟩ : String) =
      fmtDateInput y m d ++ "T23:59:59.000Z" := by
    apply String.ext
    rw [String.data_append]
    show _ = (pad4L y ++ '-' :: pad2L m ++ '-' :: pad2L d) ++ "T23:59:59.000Z".data
    simp [pad2L, pad3L, show digitChar 0 = '0' from by decide,
      show digitChar 2 = '2' from by decide, show digitChar 3 = '3' from by decide,
      show digitChar 5 = '5' from by decide, show digitChar 9 = '9' from by decide]
  rw [← hiso0] at hfrom
  rw [← hiso1] at hto
  simp only [getCurrentFilters, hne0, Bool.false_eq_true, if_false, hsplit,
    List.length_cons, List.length_nil, List.getD, List.get?]
  norm_num
  rw [hy', hm', hd']
  refine ⟨?_, ?_⟩
  · show some (toISOString (jsDateUTC y (m - 1) d 0 0 0)) =
      some (fmtDateInput y m d ++ "T00:00:00.000Z")
    rw [hfrom]
  · show some (toISOString (jsDateUTC y (m - 1) d 23 59 59)) =
      some (fmtDateInput y m d ++ "T23:59:59.000Z")
    rw [hto]





/-! ## Event-level state machine (views and camera-stream lifecycle) -/

/-- What the OCR progress view is waiting on after the
validate-document response has been handled: an auto-retry timer, or
the manual "Proceed to Selfie" / "Retry Upload" actions. -/
inductive PendingOcr where
  | retryScheduled
  | offerSelfie
deriving Repr, DecidableEq

/-- Whole-app state: the rendered view, the `state` session fields, the
closure variables of the upload and selfie views (source-select value,
mounted camera UI, held artifact, captured frame), the shared
`state.activeStream` reference, and the list of media streams whose
tracks have not been stopped (fresh streams get ids from `nextId`). -/
structure AppState where
  view : View
  session : ClientSession
  selCam : Bool
  uiCam : Bool
  chosenFile : Bool
  capturedSelfie : Bool
  pending : Option PendingOcr
  docLocal : Option Nat
  selfieLocal : Option Nat
  activeStream : Option Nat
  openStreams : List Nat
  nextId : Nat
deriving Repr, DecidableEq

/-- Model of `stopActiveStream()`: stop the tracks of the shared stream and
clear the reference; a no-op when no stream is held. -/
def stopActiveStream (st : AppState) : AppState :=
  match st.activeStream with
  | none => st
  | some s => { st with openStreams := st.openStreams.erase s, activeStream := none }

/-- Function `stopLocalCamera()` of the upload view: stop the tracks of the
local stream, then null `state.activeStream` unconditionally. -/
def stopLocalCamera (st : AppState) : AppState :=
  match st.docLocal with
  | none => { st with activeStream := none }
  | some s =>
    { st with openStreams := st.openStreams.erase s, docLocal := none, activeStream := none }

/-- Function `stopCamera()` of the selfie view: stops and nulls only when a
local stream is held. -/
def stopSelfieCamera (st : AppState) : AppState :=
  match st.selfieLocal with
  | none => st
  | some s =>
    { st with openStreams := st.openStreams.erase s, selfieLocal := none,
              activeStream := none }

/-- Successful `getUserMedia` in `setupCameraCapture`: the fresh stream
becomes the local stream of the upload view and the shared stream. -/
def acquireDocStream (st : AppState) : AppState :=
  { st with docLocal := some st.nextId, activeStream := some st.nextId,
            openStreams := st.nextId :: st.openStreams, nextId := st.nextId + 1 }

/-- Successful `getUserMedia` in `startCamera` of the selfie view. -/
def acquireSelfieStream (st : AppState) : AppState :=
  { st with selfieLocal := some st.nextId, activeStream := some st.nextId,
            openStreams := st.nextId :: st.openStreams, nextId := st.nextId + 1 }

/-- Entering a view through its render function: `stopActiveStream()`
runs first, and the closure variables of the replaced view are discarded
(the upload view re-initialises with the file source selected). -/
def enterView (v : View) (st : AppState) : AppState :=
  let st' := stopActiveStream st
  { st' with view := v, selCam := false, uiCam := false, chosenFile := false,
             capturedSelfie := false, pending := none,
             docLocal := none, selfieLocal := none }

/-- User/timer/network events the frontend reacts to. Response-carrying
events bundle the settled fetch result (`none` = request error). -/
inductive Ev where
  | navHome
  | navAdmin
  | startKyc
  | pageHide
  | createSubmitEv (name mobile ageStr : String) (resp : Option CreateResp)
  | cancelToHome
  | selectDocEv (docType : String) (resp : Option (Option String))
  | docNoSubmitEv (docNo : String) (resp : Option (Option String))
  | backToSelect
  | switchToCamera (ok : Bool)
  | switchToFile
  | cameraClose
  | docCapture
  | fileChosen
  | cancelUpload
  | uploadClick (ok : Bool) (d : OcrData)
  | timerElapse
  | proceedSelfie (camOk : Bool)
  | retryUpload
  | selfieCapture
  | selfieUploadClick (ok : Bool) (d : OcrData)
  | selfieCancel
deriving Repr, DecidableEq

/-- The session stored by a successful create-session submission (the
handler keeps the trimmed `name`/`mobile` constants and the parsed age;
when the validation guard holds, `parseIntJs` is `some`, so `getD 0` is
exactly the parsed age). -/
def createdSession (st : AppState) (name mobile ageStr : String)
    (resp : Option CreateResp) : ClientSession :=
  createSubmit st.session (jsTrim name) (jsTrim mobile) ((parseIntJs ageStr).getD 0) resp

/-- One event-handler execution (run to completion, including the
settled network response where the handler awaits one). Events whose
listeners are not mounted in the current view leave the state
unchanged. -/
def step (st : AppState) (ev : Ev) : AppState :=
  match ev with
  | .navHome => enterView .home st
  | .navAdmin => enterView .adminList st
  | .startKyc => enterView .createSession st
  | .pageHide => stopActiveStream st
  | .createSubmitEv name mobile ageStr resp =>
    if st.view = .createSession then
      if createSessionSends name mobile ageStr then
        match resp with
        | none => st
        | some b =>
          if extractSid b = none then st
          else
            enterView .selectDocument
              { st with session := createdSession st name mobile ageStr resp }
      else st
    else st
  | .cancelToHome => if st.view = .createSession then enterView .home st else st
  | .selectDocEv docType resp =>
    if st.view = .selectDocument then
      if jsTruthy st.session.sessionId then
        match resp with
        | none => st
        | some f =>
          enterView .enterDocNumber
            { st with session :=
                { st.session with documentType := some ((jsOr f (some docType)).getD "") } }
      else st
    else st
  | .docNoSubmitEv docNo resp =>
    if st.view = .enterDocNumber then
      if (jsTrim docNo).isEmpty then st
      else if jsTruthy st.session.sessionId then
        match resp with
        | none => st
        | some f =>
          enterView .uploadDocument
            { st with session :=
                { st.session with documentNumber := some ((jsOr f (some (jsTrim docNo))).getD "") } }
      else st
    else st
  | .backToSelect => if st.view = .enterDocNumber then enterView .selectDocument st else st
  | .switchToCamera ok =>
    if st.view = .uploadDocument ∧ st.selCam = false then
      let st' := { st with selCam := true, uiCam := true, chosenFile := false }
      if ok then acquireDocStream st' else st'
    else st
  | .switchToFile =>
    if st.view = .uploadDocument ∧ st.selCam = true then
      stopLocalCamera { st with selCam := false, uiCam := false, chosenFile := false }
    else st
  | .cameraClose =>
    if st.view = .uploadDocument ∧ st.uiCam = true ∧ st.docLocal ≠ none then
      stopLocalCamera { st with uiCam := false }
    else st
  | .docCapture =>
    if st.view = .uploadDocument ∧ st.uiCam = true ∧ st.docLocal ≠ none then
      { st with chosenFile := true }
    else st
  | .fileChosen =>
    if st.view = .uploadDocument ∧ st.uiCam = false then { st with chosenFile := true } else st
  | .cancelUpload =>
    if st.view = .uploadDocument then enterView .home (stopLocalCamera st) else st
  | .uploadClick ok d =>
    if st.view = .uploadDocument then
      if st.chosenFile = true then
        if jsTruthy st.session.sessionId then
          { st with view := .ocrProgress,
                    pending := some (match docUploadOutcome ok d with
                      | .offerActions _ _ _ => .offerSelfie
                      | .autoRetry _ _ => .retryScheduled) }
        else st
      else st
    else st
  | .timerElapse =>
    if st.view = .ocrProgress ∧ st.pending = some .retryScheduled then
      enterView .uploadDocument st
    else st
  | .proceedSelfie camOk =>
    if st.view = .ocrProgress ∧ st.pending = some .offerSelfie then
      let st' := enterView .selfieUpload st
      if camOk then acquireSelfieStream st' else st'
    else st
  | .retryUpload =>
    if st.view = .ocrProgress ∧ st.pending = some .offerSelfie then
      enterView .uploadDocument st
    else st
  | .selfieCapture =>
    if st.view = .selfieUpload ∧ st.selfieLocal ≠ none then
      { st with capturedSelfie := true }
    else st
  | .selfieUploadClick ok _d =>
    if st.view = .selfieUpload then
      if st.capturedSelfie = true then
        if jsTruthy st.session.sessionId then
          if ok then enterView .statusPage (stopSelfieCamera st) else st
        else st
      else st
    else st
  | .selfieCancel =>
    if st.view = .selfieUpload then enterView .uploadDocument (stopSelfieCamera st) else st

/-- Client state at page load: the persisted session id is read back,
no stream is open, `boot()` shows the home view. -/
def initState (persisted : Option String) : AppState :=
  { view := .home
    session := { sessionId := persisted, persisted := persisted, name := none,
                 mobile := none, age := none, documentType := none, documentNumber := none }
    selCam := false, uiCam := false, chosenFile := false, capturedSelfie := false
    pending := none, docLocal := none, selfieLocal := none, activeStream := none
    openStreams := [], nextId := 0 }

/-- The state after a sequence of events from page load. -/
def run (persisted : Option String) (evs : List Ev) : AppState :=
  evs.foldl step (initState persisted)

/-- The head conjunct of `Inv`: the shared reference covers the
unstopped streams. -/
def StreamsOk (st : AppState) : Prop :=
  st.openStreams = [] ∧ st.activeStream = none ∨
    ∃ s, st.openStreams = [s] ∧ st.activeStream = some s

/-- The cross-view stream invariant: the shared reference covers every
unstopped stream (so at most one is open), local references agree with
the shared one in the views that own them, and the camera
flags are consistent. -/
def Inv (st : AppState) : Prop :=
  StreamsOk st ∧
  ((st.view = .uploadDocument ∨ st.view = .ocrProgress) →
    st.activeStream = st.docLocal ∨ st.activeStream = none) ∧
  (st.view = .selfieUpload → st.activeStream = st.selfieLocal ∨ st.activeStream = none) ∧
  (st.view ≠ .uploadDocument → st.view ≠ .ocrProgress → st.view ≠ .selfieUpload →
    st.activeStream = none) ∧
  (st.uiCam = true → st.selCam = true) ∧
  (st.docLocal ≠ none → st.uiCam = true ∧ (st.view = .uploadDocument ∨ st.view = .ocrProgress))

theorem stopActiveStream_activeStream (st : AppState) :
    (stopActiveStream st).activeStream = none := by
  rw [stopActiveStream]
  match hs : st.activeStream with
  | none => rw [hs]
  | some s => rfl

theorem stopActiveStream_openStreams (st : AppState) (hs : StreamsOk st) :
    (stopActiveStream st).openStreams = [] := by
  rw [stopActiveStream]
  rcases hs with ⟨h1, h2⟩ | ⟨s, h1, h2⟩
  · rw [h2]; exact h1
  · rw [h2]; simp [h1]

theorem stopActiveStream_view (st : AppState) : (stopActiveStream st).view = st.view := by
  rw [stopActiveStream]
  match hs : st.activeStream with
  | none => rfl
  | some s => rfl

theorem inv_stopActiveStream (st : AppState) (h : Inv st) : Inv (stopActiveStream st) := by
  obtain ⟨hs, hdoc, hselfie, hquiet, hcam, hdl⟩ := h
  have h1 := stopActiveStream_activeStream st
  have h2 := stopActiveStream_openStreams st hs
  rw [stopActiveStream] at h1 h2 ⊢
  match hsa : st.activeStream with
  | none =>
    rw [hsa] at h1 h2
    exact ⟨Or.inl ⟨h2, h1⟩, hdoc, hselfie, fun _ _ _ => h1, hcam, hdl⟩
  | some s =>
    rw [hsa] at h1 h2
    exact ⟨Or.inl ⟨h2, h1⟩, fun _ => Or.inr h1, fun _ => Or.inr h1, fun _ _ _ => h1,
      hcam, fun hne => hdl hne⟩

theorem inv_enterView (v : View) (st : AppState) (hs : StreamsOk st) :
    Inv (enterView v st) := by
  have h1 := stopActiveStream_activeStream st
  have h2 := stopActiveStream_openStreams st hs
  rw [enterView]
  exact ⟨Or.inl ⟨h2, h1⟩, fun _ => Or.inr h1, fun _ => Or.inr h1, fun _ _ _ => h1,
    by simp, by simp⟩


theorem enterView_view (v : View) (st : AppState) : (enterView v st).view = v := rfl

theorem enterView_activeStream (v : View) (st : AppState) :
    (enterView v st).activeStream = none := stopActiveStream_activeStream st

theorem stopLocalCamera_eq (st : AppState) :
    stopLocalCamera st =
      { st with
        openStreams := (match st.docLocal with
          | none => st.openStreams
          | some s => st.openStreams.erase s)
        docLocal := none
        activeStream := none } := by
  cases hh : st.docLocal <;> simp [stopLocalCamera, hh]

theorem stopLocalCamera_clean (st : AppState) (hs : StreamsOk st)
    (hdoc : st.activeStream = st.docLocal ∨ st.activeStream = none) :
    (stopLocalCamera st).openStreams = [] ∧ (stopLocalCamera st).activeStream = none := by
  rw [stopLocalCamera_eq]
  refine ⟨?_, rfl⟩
  show (match st.docLocal with
    | none => st.openStreams
    | some s => st.openStreams.erase s) = []
  rcases hs with ⟨h1, h2⟩ | ⟨s, h1, h2⟩
  · rw [h1]
    cases st.docLocal with
    | none => rfl
    | some s => exact List.erase_nil s
  · rcases hdoc with hd | hd
    · rw [h2] at hd
      rw [← hd, h1]
      simp
    · rw [h2] at hd; cases hd

theorem stopSelfieCamera_clean (st : AppState) (hs : StreamsOk st)
    (hself : st.activeStream = st.selfieLocal ∨ st.activeStream = none) :
    StreamsOk (stopSelfieCamera st) := by
  rw [stopSelfieCamera]
  cases h : st.selfieLocal with
  | none => exact hs
  | some s =>
    left
    rcases hs with ⟨h1, h2⟩ | ⟨t, h1, h2⟩
    · exact ⟨by rw [h1]; exact List.erase_nil s, rfl⟩
    · refine ⟨?_, rfl⟩
      rcases hself with hd | hd
      · rw [h2, h] at hd
        cases hd
        rw [h1]
        simp
      · rw [h2] at hd; cases hd

theorem inv_step (st : AppState) (ev : Ev) (h : Inv st) : Inv (step st ev) := by
  obtain ⟨hs, hdoc, hselfie, hquiet, hcam, hdl⟩ := h
  have hInv : Inv st := ⟨hs, hdoc, hselfie, hquiet, hcam, hdl⟩
  cases ev with
  | navHome => exact inv_enterView _ _ hs
  | navAdmin => exact inv_enterView _ _ hs
  | startKyc => exact inv_enterView _ _ hs
  | pageHide => exact inv_stopActiveStream st hInv
  | createSubmitEv name mobile ageStr resp =>
    simp only [step]
    split
    · split
      · cases resp with
        | none => exact hInv
        | some b =>
          show Inv (if extractSid b = none then st
            else enterView .selectDocument
              { st with session := createdSession st name mobile ageStr (some b) })
          split
          · exact hInv
          · exact inv_enterView _ _ hs
      · exact hInv
    · exact hInv
  | cancelToHome =>
    simp only [step]; split
    · exact inv_enterView _ _ hs
    · exact hInv
  | selectDocEv docType resp =>
    simp only [step]
    split
    · split
      · cases resp with
        | none => exact hInv
        | some f => exact inv_enterView _ _ hs
      · exact hInv
    · exact hInv
  | docNoSubmitEv docNo resp =>
    simp only [step]
    split
    · split
      · exact hInv
      · split
        · cases resp with
          | none => exact hInv
          | some f => exact inv_enterView _ _ hs
        · exact hInv
    · exact hInv
  | backToSelect =>
    simp only [step]; split
    · exact inv_enterView _ _ hs
    · exact hInv
  | switchToCamera ok =>
    simp only [step]
    split
    · rename_i hg
      obtain ⟨hv, hsel⟩ := hg
      have hui : st.uiCam = false := by
        cases hu : st.uiCam with
        | false => rfl
        | true => rw [hcam hu] at hsel; cases hsel
      have hdln : st.docLocal = none := by
        cases hd : st.docLocal with
        | none => rfl
        | some s =>
          have := (hdl (by rw [hd]; exact fun hc => Option.noConfusion hc)).1
          rw [this] at hui; cases hui
      have hact : st.activeStream = none := by
        rcases hdoc (Or.inl hv) with ha | ha
        · rw [ha, hdln]
        · exact ha
      have hopen : st.openStreams = [] := by
        rcases hs with ⟨h1, _⟩ | ⟨s, h1, h2⟩
        · exact h1
        · rw [hact] at h2; cases h2
      split
      · refine ⟨?_, ?_, ?_, ?_, ?_, ?_⟩
        · refine Or.inr ⟨st.nextId, ?_, rfl⟩
          show st.nextId :: st.openStreams = [st.nextId]
          rw [hopen]
        · exact fun _ => Or.inl rfl
        · intro hb
          exact absurd (hv ▸ hb : View.uploadDocument = View.selfieUpload) (by decide)
        · intro hb _ _
          exact absurd (hv ▸ hb : View.uploadDocument ≠ View.uploadDocument) (by simp)
        · exact fun _ => rfl
        · exact fun _ => ⟨rfl, Or.inl hv⟩
      · refine ⟨Or.inl ⟨hopen, hact⟩, fun _ => Or.inr hact, fun _ => Or.inr hact,
          fun _ _ _ => hact, fun _ => rfl, fun hb => ?_⟩
        rw [show ({ st with selCam := true, uiCam := true, chosenFile := false }
          : AppState).docLocal = st.docLocal from rfl, hdln] at hb
        cases hb rfl
    · exact hInv
  | switchToFile =>
    simp only [step]
    split
    · rename_i hg
      have hv : st.view = .uploadDocument := hg.1
      have hdoc' : st.activeStream = st.docLocal ∨ st.activeStream = none :=
        hdoc (Or.inl hv)
      have hclean := stopLocalCamera_clean
        { st with selCam := false, uiCam := false, chosenFile := false } hs hdoc'
      refine ⟨Or.inl hclean, fun _ => Or.inr hclean.2, fun _ => Or.inr hclean.2,
        fun _ _ _ => hclean.2, ?_, ?_⟩
      · intro hb
        rw [stopLocalCamera_eq] at hb ⊢
        cases hb
      · intro hb
        rw [stopLocalCamera_eq] at hb
        cases hb rfl
    · exact hInv
  | cameraClose =>
    simp only [step]
    split
    · rename_i hg
      have hv : st.view = .uploadDocument := hg.1
      have hdoc' : st.activeStream = st.docLocal ∨ st.activeStream = none :=
        hdoc (Or.inl hv)
      have hclean := stopLocalCamera_clean { st with uiCam := false } hs hdoc'
      refine ⟨Or.inl hclean, fun _ => Or.inr hclean.2, fun _ => Or.inr hclean.2,
        fun _ _ _ => hclean.2, ?_, ?_⟩
      · intro hb
        rw [stopLocalCamera_eq] at hb
        cases hb
      · intro hb
        rw [stopLocalCamera_eq] at hb
        cases hb rfl
    · exact hInv
  | docCapture =>
    simp only [step]; split
    · exact ⟨hs, hdoc, hselfie, hquiet, hcam, hdl⟩
    · exact hInv
  | fileChosen =>
    simp only [step]; split
    · exact ⟨hs, hdoc, hselfie, hquiet, hcam, hdl⟩
    · exact hInv
  | cancelUpload =>
    simp only [step]
    split
    · rename_i hv
      have hclean := stopLocalCamera_clean st hs (hdoc (Or.inl hv))
      exact inv_enterView _ _ (Or.inl hclean)
    · exact hInv
  | uploadClick ok d =>
    simp only [step]
    split
    · rename_i hv
      split
      · split
        · refine ⟨hs, fun _ => hdoc (Or.inl hv), ?_, ?_, hcam,
            fun hb => ⟨(hdl hb).1, Or.inr rfl⟩⟩
          · intro hb; cases hb
          · intro _ hb _; cases hb rfl
        · exact hInv
      · exact hInv
    · exact hInv
  | timerElapse =>
    simp only [step]; split
    · exact inv_enterView _ _ hs
    · exact hInv
  | proceedSelfie camOk =>
    simp only [step]
    split
    · split
      · have h2 : (enterView .selfieUpload st).openStreams = [] :=
          stopActiveStream_openStreams st hs
        refine ⟨?_, ?_, ?_, ?_, ?_, ?_⟩
        · refine Or.inr ⟨(enterView .selfieUpload st).nextId, ?_, rfl⟩
          show (enterView .selfieUpload st).nextId ::
            (enterView .selfieUpload st).openStreams = _
          rw [h2]
        · intro hb
          rcases hb with hb | hb <;> cases hb
        · exact fun _ => Or.inl rfl
        · intro _ _ hb
          cases hb rfl
        · intro hb
          cases hb
        · intro hb
          cases hb rfl
      · exact inv_enterView _ _ hs
    · exact hInv
  | retryUpload =>
    simp only [step]; split
    · exact inv_enterView _ _ hs
    · exact hInv
  | selfieCapture =>
    simp only [step]; split
    · exact ⟨hs, hdoc, hselfie, hquiet, hcam, hdl⟩
    · exact hInv
  | selfieUploadClick ok d =>
    simp only [step]
    split
    · rename_i hv
      split
      · split
        · split
          · exact inv_enterView _ _ (stopSelfieCamera_clean st hs (hselfie hv))
          · exact hInv
        · exact hInv
      · exact hInv
    · exact hInv
  | selfieCancel =>
    simp only [step]
    split
    · rename_i hv
      exact inv_enterView _ _ (stopSelfieCamera_clean st hs (hselfie hv))
    · exact hInv

theorem inv_init (persisted : Option String) : Inv (initState persisted) := by
  refine ⟨?_, ?_, ?_, ?_, ?_, ?_⟩
  · exact Or.inl ⟨rfl, rfl⟩
  · exact fun _ => Or.inr rfl
  · exact fun _ => Or.inr rfl
  · exact fun _ _ _ => rfl
  · intro hb; cases hb
  · intro hb; cases hb rfl

theorem inv_run (persisted : Option String) (evs : List Ev) : Inv (run persisted evs) := by
  rw [run]
  have hgen : ∀ (l : List Ev) (st : AppState), Inv st → Inv (l.foldl step st) := by
    intro l
    induction l with
    | nil => intro st h; exact h
    | cons e tl ih => intro st h; exact ih _ (inv_step st e h)
  exact hgen evs _ (inv_init persisted)


/-! ## Frame lemmas for backward navigation -/

theorem stopActiveStream_session (st : AppState) :
    (stopActiveStream st).session = st.session := by
  rw [stopActiveStream]
  cases st.activeStream <;> rfl

theorem enterView_session (v : View) (st : AppState) :
    (enterView v st).session = st.session := stopActiveStream_session st

theorem stopLocalCamera_session (st : AppState) :
    (stopLocalCamera st).session = st.session := by
  rw [stopLocalCamera]
  cases st.docLocal <;> rfl

theorem stopSelfieCamera_session (st : AppState) :
    (stopSelfieCamera st).session = st.session := by
  rw [stopSelfieCamera]
  cases st.selfieLocal <;> rfl

/-! ## The document-upload retry loop at the machine level -/

/-- One failed upload attempt as the user experiences it: choose a
file, click upload (the server answers with a non-success status), and
let the 1.2 s timer re-render the upload view. -/
def failCycle (d : OcrData) (st : AppState) : AppState :=
  step (step (step st .fileChosen) (.uploadClick false d)) .timerElapse

theorem failCycle_spec (d : OcrData) (st : AppState)
    (hv : st.view = .uploadDocument) (hui : st.uiCam = false)
    (hsid : jsTruthy st.session.sessionId = true) :
    (step st .fileChosen).view = .uploadDocument ∧
    (step (step st .fileChosen) (.uploadClick false d)).view = .ocrProgress ∧
    (step (step st .fileChosen) (.uploadClick false d)).pending = some .retryScheduled ∧
    (failCycle d st).view = .uploadDocument ∧
    (failCycle d st).uiCam = false ∧
    (failCycle d st).session = st.session := by
  have h1 : step st .fileChosen = { st with chosenFile := true } := by
    simp only [step]
    rw [if_pos ⟨hv, hui⟩]
  have h2 : step { st with chosenFile := true } (.uploadClick false d) =
      { st with chosenFile := true, view := .ocrProgress,
                pending := some .retryScheduled } := by
    simp only [step]
    rw [if_pos (show ({ st with chosenFile := true } : AppState).view = .uploadDocument from hv),
        if_pos (by trivial), if_pos hsid]
    rfl
  rw [failCycle, h1, h2]
  refine ⟨hv, rfl, rfl, ?_, ?_, ?_⟩
  · simp only [step]
    rw [if_pos (by simp)]
    rfl
  · simp only [step]
    rw [if_pos (by simp)]
    rfl
  · simp only [step]
    rw [if_pos (by simp)]
    exact enterView_session _ _

theorem failCycle_iter (d : OcrData) (st : AppState) (n : Nat)
    (hv : st.view = .uploadDocument) (hui : st.uiCam = false)
    (hsid : jsTruthy st.session.sessionId = true) :
    ((failCycle d)^[n] st).view = .uploadDocument ∧
    ((failCycle d)^[n] st).uiCam = false ∧
    jsTruthy ((failCycle d)^[n] st).session.sessionId = true := by
  induction n generalizing st with
  | zero => exact ⟨hv, hui, hsid⟩
  | succ k ih =>
    rw [Function.iterate_succ_apply]
    have h := failCycle_spec d st hv hui hsid
    exact ih _ h.2.2.2.1 h.2.2.2.2.1 (by rw [h.2.2.2.2.2]; exact hsid)

/-! ## Spec-side definitions for the refinement comparisons -/

/-- Modelled from the spec: "the age is a valid integer" — the trimmed
input is an optionally signed decimal integer literal (nothing but sign
and digits). Used only to compare the acceptance predicate of the spec with
the `parseInt`-based one of the code. -/
def isIntegerLiteral (s : String) : Bool :=
  match (jsTrim s).data with
  | '-' :: ds => !ds.isEmpty && ds.all Char.isDigit
  | '+' :: ds => !ds.isEmpty && ds.all Char.isDigit
  | ds => !ds.isEmpty && ds.all Char.isDigit

/-! ## Claim theorems -/

/-- C1: on a success HTTP status, the document-upload flow advances to
the selfie step iff the next-step directive of the response equals the
marker `"SELFIE"`; on that value it presents "Proceed to Selfie" and
"Retry Upload" actions (targets: selfie view / upload view) and never
schedules an auto-retry; on any other directive it shows the
server-supplied reason (or the generic mismatch message) and re-renders
the upload view after the fixed 1200 ms delay. -/
theorem C1_success_advance_iff_selfie (d : OcrData) :
    (docUploadOutcome true d =
        .offerActions .selfieUpload .uploadDocument (ocrStorageNote d) ↔
      nextStepDirective d = some "SELFIE") ∧
    (nextStepDirective d ≠ some "SELFIE" →
      docUploadOutcome true d = .autoRetry 1200 (ocrMismatchMsg d)) := by
  constructor
  · constructor
    · intro h
      by_contra hne
      rw [docUploadOutcome] at h
      rw [if_neg (by simp), if_neg hne] at h
      cases h
    · intro h
      rw [docUploadOutcome, if_neg (by simp), if_pos h]
  · intro h
    rw [docUploadOutcome, if_neg (by simp), if_neg h]

theorem C1_witness :
    docUploadOutcome true ⟨some "SELFIE", none, none, none, none⟩ =
      .offerActions .selfieUpload .uploadDocument "uploaded" ∧
    docUploadOutcome true ⟨some "SCAN_DOC", none, some "glare", none, none⟩ =
      .autoRetry 1200 "glare" := by
  constructor
  · have h := (C1_success_advance_iff_selfie ⟨some "SELFIE", none, none, none, none⟩).1.mpr
      (by decide)
    rw [h]
    decide
  · have h := (C1_success_advance_iff_selfie ⟨some "SCAN_DOC", none, some "glare", none, none⟩).2
      (by decide)
    rw [h]
    decide

/-- C2: at every reachable state (any persisted-session boot, any event
sequence), at most one media stream is open process-wide. -/
theorem C2_at_most_one_stream (persisted : Option String) (evs : List Ev) :
    (run persisted evs).openStreams.length ≤ 1 := by
  rcases (inv_run persisted evs).1 with ⟨h1, _⟩ | ⟨s, h1, _⟩ <;> rw [h1] <;> simp

/-- C3 counterexample: with name `"A"`, mobile `"9876543210"` and age
input `"18abc"`, the create-session handler sends the network request
although the age input is not a valid integer (JS `parseInt` reads the
leading `18` and ignores the rest). -/
theorem C3_counterexample :
    createSessionSends "A" "9876543210" "18abc" = true ∧
    isIntegerLiteral "18abc" = false := by decide

/-- C3 (amended): the request is sent iff the trimmed name is nonempty,
the trimmed mobile is exactly ten digits, and the age input parses
under JS `parseInt` semantics (leading integer, trailing characters
ignored) to a value of at least 18. -/
theorem C3_validation_iff (name mobile ageStr : String) :
    createSessionSends name mobile ageStr = true ↔
      (jsTrim name ≠ "" ∧ (jsTrim mobile).length = 10 ∧
        (jsTrim mobile).data.all Char.isDigit = true ∧
        ∃ a : Int, parseIntJs ageStr = some a ∧ 18 ≤ a) := by
  rw [createSessionSends]
  split
  · rename_i hcond
    rw [Bool.or_eq_true, Bool.not_eq_true'] at hcond
    constructor
    · intro h; cases h
    · rintro ⟨hn, hlen, hdig, -⟩
      exfalso
      rcases hcond with hc | hc
      · exact hn ((String.isEmpty_iff _).mp hc)
      · rw [regexTenDigits, Bool.and_eq_false_iff] at hc
        rcases hc with hc | hc
        · rw [decide_eq_false_iff_not] at hc; exact hc hlen
        · rw [hdig] at hc; cases hc
  · rename_i hcond
    rw [Bool.or_eq_true, not_or, Bool.not_eq_true, Bool.not_eq_true'] at hcond
    obtain ⟨hne, hregexne⟩ := hcond
    have hregex : regexTenDigits (jsTrim mobile) = true := by
      cases hr : regexTenDigits (jsTrim mobile)
      · exact absurd hr hregexne
      · rfl
    rw [regexTenDigits, Bool.and_eq_true, decide_eq_true_eq] at hregex
    have hn : jsTrim name ≠ "" := fun hc => by rw [hc] at hne; cases hne
    cases hpi : parseIntJs ageStr with
    | none =>
      constructor
      · intro h; cases h
      · rintro ⟨_, _, _, a, h2, _⟩
        exact Option.noConfusion h2
    | some a =>
      show decide (18 ≤ a) = true ↔ _
      constructor
      · intro hdec
        rw [decide_eq_true_eq] at hdec
        exact ⟨hn, hregex.1, hregex.2, a, rfl, hdec⟩
      · rintro ⟨_, _, _, b, h2, hb⟩
        cases h2
        exact decide_eq_true hb

theorem C3_witness :
    createSessionSends "Alice" "9876543210" "25" = true := by
  rw [C3_validation_iff]
  refine ⟨by decide, by decide, by decide, 25, by decide, by decide⟩

/-- C4: a non-success HTTP status on document upload always surfaces
the server reason (`reason`/`detail`, else the generic message) and
schedules the fixed 1200 ms re-render of the upload view, whatever the
body holds; and at the machine level the client imposes no bound: after
any number `n` of failed attempts the upload view is presented again
and the next attempt still goes out. -/
theorem C4_unbounded_http_retry (d : OcrData) (st : AppState) (n : Nat)
    (hv : st.view = .uploadDocument) (hui : st.uiCam = false)
    (hsid : jsTruthy st.session.sessionId = true) :
    (∀ d' : OcrData, docUploadOutcome false d' =
      .autoRetry 1200 ("OCR failed: " ++ ocrFailMsg d')) ∧
    ((failCycle d)^[n] st).view = .uploadDocument ∧
    (step (step ((failCycle d)^[n] st) .fileChosen) (.uploadClick false d)).view
      = .ocrProgress ∧
    (step (step ((failCycle d)^[n] st) .fileChosen) (.uploadClick false d)).pending
      = some .retryScheduled := by
  obtain ⟨h1, h2, h3⟩ := failCycle_iter d st n hv hui hsid
  have hspec := failCycle_spec d ((failCycle d)^[n] st) h1 h2 h3
  exact ⟨fun d' => by rw [docUploadOutcome, if_pos (by simp)], h1, hspec.2.1, hspec.2.2.1⟩

/-- A state of the upload view with a stored session, used to witness
the machine-level claims at a concrete input. -/
def uploadViewState : AppState :=
  { view := .uploadDocument
    session := { sessionId := some "S1", persisted := some "S1", name := some "A",
                 mobile := some "9876543210", age := some 25,
                 documentType := some "PAN", documentNumber := some "ABCDE1234F" }
    selCam := false, uiCam := false, chosenFile := false, capturedSelfie := false
    pending := none, docLocal := none, selfieLocal := none, activeStream := none
    openStreams := [], nextId := 0 }

theorem C4_witness :
    ((failCycle ⟨some "SCAN_DOC", none, some "glare", none, none⟩)^[3]
        uploadViewState).view = .uploadDocument := by
  exact (C4_unbounded_http_retry ⟨some "SCAN_DOC", none, some "glare", none, none⟩
    uploadViewState 3 rfl rfl (by decide)).2.1

/-- C5: the moderation detail action bar is a pure function of the
record status: `APPROVED` → badge + Reject; `REJECTED` → Approve only;
`IN_PROGRESS`, `KYC_CHECK` and every other status → Approve + Reject. -/
theorem C5_admin_actions_by_status :
    adminActions "APPROVED" = [.approvedBadge, .rejectBtn] ∧
    adminActions "REJECTED" = [.approveBtn] ∧
    adminActions "IN_PROGRESS" = [.approveBtn, .rejectBtn] ∧
    adminActions "KYC_CHECK" = [.approveBtn, .rejectBtn] ∧
    (∀ s : String, s ≠ "APPROVED" → s ≠ "REJECTED" →
      adminActions s = [.approveBtn, .rejectBtn]) := by
  refine ⟨by decide, by decide, by decide, by decide, fun s h1 h2 => ?_⟩
  rw [adminActions, if_neg h1, if_neg h2]
  split <;> rfl

theorem C5_witness : adminActions "WHATEVER" = [.approveBtn, .rejectBtn] :=
  C5_admin_actions_by_status.2.2.2.2 "WHATEVER" (by decide) (by decide)

/-- C6: the selfie request goes out only with a captured frame and a
(truthy) session id — otherwise a local message and no call; on any
success status the flow advances to the Status view unconditionally,
never reading the body; on failure it stays on the selfie view. The
last conjunct states the view transition on the event machine. -/
theorem C6_selfie_submission (sid : Option String) (d : OcrData) (e : Option String)
    (st : AppState) (hview : st.view = .selfieUpload)
    (hcap : st.capturedSelfie = true) (hsid : jsTruthy st.session.sessionId = true) :
    (∀ ok, selfieSubmit false sid ok d e = .noCall "Capture a selfie first.") ∧
    (jsTruthy sid = false → ∀ ok, selfieSubmit true sid ok d e = .noCall "Session missing.") ∧
    (jsTruthy sid = true → selfieSubmit true sid true d e = .advanceToStatus) ∧
    (jsTruthy sid = true → selfieSubmit true sid false d e =
      .stayWithMsg ("Selfie upload failed: " ++ ((jsOr e (some "Upload failed")).getD ""))) ∧
    (step st (.selfieUploadClick true d)).view = .statusPage := by
  refine ⟨fun ok => by rw [selfieSubmit, if_pos (by rfl)], ?_, ?_, ?_, ?_⟩
  · intro hf ok
    rw [selfieSubmit, if_neg (by simp), if_pos (by rw [hf]; rfl)]
  · intro ht
    rw [selfieSubmit, if_neg (by simp), if_neg (by rw [ht]; simp), if_pos rfl]
  · intro ht
    rw [selfieSubmit, if_neg (by simp), if_neg (by rw [ht]; simp), if_neg (by simp)]
  · simp only [step]
    rw [if_pos hview, if_pos hcap, if_pos hsid, if_pos (by trivial)]
    rfl

/-- A selfie-view state with a captured frame, for the C6 witness. -/
def selfieViewState : AppState :=
  { uploadViewState with view := .selfieUpload, capturedSelfie := true }

theorem C6_witness :
    (step selfieViewState (.selfieUploadClick true
      ⟨some "SCAN_DOC", none, none, none, none⟩)).view = .statusPage :=
  (C6_selfie_submission (some "S1") ⟨some "SCAN_DOC", none, none, none, none⟩ none
    selfieViewState rfl rfl (by decide)).2.2.2.2

/-- The event sequence driving the wizard from boot to a document
upload taken with the camera: the upload click replaces the view with
the OCR progress template while the camera stream is still open. -/
def ocrProgressTrace : List Ev :=
  [.startKyc,
   .createSubmitEv "Alice" "9876543210" "25" (some ⟨some "S1", none, none⟩),
   .selectDocEv "PAN" (some (some "PAN")),
   .docNoSubmitEv "ABCDE1234F" (some (some "ABCDE1234F")),
   .switchToCamera true,
   .docCapture,
   .uploadClick true ⟨some "SELFIE", none, none, none, none⟩]

/-- C7 counterexample: just before the upload click the upload view
holds the open camera stream `0`; after the click the app is in the
OCR-progress view and stream `0` is still open — entering that view
does not release the camera stream. -/
theorem C7_counterexample :
    (run none (ocrProgressTrace.take 6)).view = .uploadDocument ∧
    (run none (ocrProgressTrace.take 6)).openStreams = [0] ∧
    (run none ocrProgressTrace).view = .ocrProgress ∧
    (run none ocrProgressTrace).openStreams = [0] := by decide

/-- C7 (amended): outside the three capture-flow views (upload,
OCR progress, selfie) no stream is ever open at a reachable state;
every view entered through a render function has released all streams
(`enterView` runs `stopActiveStream` first); and `stopActiveStream` is
an idempotent no-op when no stream is held. The OCR-progress
transition is the exception the counterexample exhibits: it is not a
render entry and keeps the stream of the upload view open. -/
theorem C7_entry_releases_streams (p : Option String) (evs : List Ev) (v : View)
    (st : AppState) (hq1 : (run p evs).view ≠ .uploadDocument)
    (hq2 : (run p evs).view ≠ .ocrProgress) (hq3 : (run p evs).view ≠ .selfieUpload)
    (hst : StreamsOk st) :
    (run p evs).openStreams = [] ∧
    (enterView v st).openStreams = [] ∧
    (st.activeStream = none → stopActiveStream st = st) ∧
    stopActiveStream (stopActiveStream st) = stopActiveStream st := by
  obtain ⟨hs, _, _, hquiet, _, _⟩ := inv_run p evs
  have hnone := hquiet hq1 hq2 hq3
  have hnoop : ∀ u : AppState, u.activeStream = none → stopActiveStream u = u := by
    intro u hu
    rw [stopActiveStream, hu]
  refine ⟨?_, stopActiveStream_openStreams st hst, hnoop st, ?_⟩
  · rcases hs with ⟨h1, _⟩ | ⟨s, _, h2⟩
    · exact h1
    · rw [hnone] at h2; cases h2
  · exact hnoop _ (stopActiveStream_activeStream st)

theorem C7_witness : (run none []).openStreams = [] :=
  (C7_entry_releases_streams none [] .home (initState none)
    (by decide) (by decide) (by decide) (Or.inl ⟨rfl, rfl⟩)).1

/-- C8 counterexample: selecting the calendar date `0099-03-15` does
not produce the UTC bounds of that date — JS `Date.UTC` maps two-digit years
to 19xx, so `created_from` is `1999-03-15T00:00:00.000Z`. -/
theorem C8_counterexample :
    (getCurrentFilters none none (some "0099-03-15")).created_from =
      some "1999-03-15T00:00:00.000Z" ∧
    (getCurrentFilters none none (some "0099-03-15")).created_from ≠
      some "0099-03-15T00:00:00.000Z" := by decide

/-- C8 (amended): for every selected calendar date whose year is at
least 100 (and at most 9999), the admin list request carries
`created_from` = that date at `00:00:00.000` UTC and `created_to` =
the same date at `23:59:59.000` UTC; with no date selected neither
bound is included. (For years 0–99 the legacy `Date.UTC` mapping shifts
the year by 1900, as the counterexample shows.) -/
theorem C8_date_filter_range (sv dv : Option String) (y m d : Nat)
    (h100 : 100 ≤ y) (h9999 : y ≤ 9999) (hm1 : 1 ≤ m) (hm2 : m ≤ 12)
    (hd1 : 1 ≤ d) (hd2 : d ≤ daysInMonth y m) :
    (getCurrentFilters sv dv (some (fmtDateInput y m d))).created_from
        = some (fmtDateInput y m d ++ "T00:00:00.000Z") ∧
    (getCurrentFilters sv dv (some (fmtDateInput y m d))).created_to
        = some (fmtDateInput y m d ++ "T23:59:59.000Z") ∧
    (∀ s t : Option String, (getCurrentFilters s t none).created_from = none ∧
      (getCurrentFilters s t none).created_to = none) := by
  obtain ⟨h1, h2⟩ := getCurrentFilters_dateRange sv dv y m d h100 h9999 hm1 hm2 hd1 hd2
  exact ⟨h1, h2, fun s t => ⟨rfl, rfl⟩⟩

theorem C8_witness :
    (getCurrentFilters none none (some (fmtDateInput 2024 3 15))).created_from
      = some (fmtDateInput 2024 3 15 ++ "T00:00:00.000Z") :=
  (C8_date_filter_range none none 2024 3 15 (by decide) (by decide) (by decide)
    (by decide) (by decide) (by decide)).1

/-- C9: the three backward-navigation actions — "back to select
document", "cancel upload" and the selfie cancel — change only which
view is rendered (and the camera bookkeeping); every stored session
field (session id, persisted id, name, mobile, age, documentType,
documentNumber) is left unchanged, from any state. -/
theorem C9_backnav_preserves_session (st : AppState) :
    (step st .backToSelect).session = st.session ∧
    (step st .cancelUpload).session = st.session ∧
    (step st .selfieCancel).session = st.session := by
  refine ⟨?_, ?_, ?_⟩
  · simp only [step]; split
    · exact enterView_session _ _
    · rfl
  · simp only [step]; split
    · rw [enterView_session, stopLocalCamera_session]
    · rfl
  · simp only [step]; split
    · rw [enterView_session, stopSelfieCamera_session]
    · rfl

/-- C10: session creation is atomic for the client state: a request
error leaves every field (in-memory id, persisted id, name, mobile,
age) unchanged; a success body without a truthy `session_id` /
`sessionId` / `id` leaves them unchanged too; and when a non-empty id
is extracted, it replaces both the in-memory and the persisted id and
the name/mobile/age are stored, the document fields untouched. -/
theorem C10_create_session_atomicity (st : ClientSession) (name mobile : String)
    (age : Int) (b : CreateResp) :
    createSubmit st name mobile age none = st ∧
    (extractSid b = none → createSubmit st name mobile age (some b) = st) ∧
    (∀ sid, extractSid b = some sid → sid ≠ "" ∧
      createSubmit st name mobile age (some b) =
        { st with sessionId := some sid, persisted := some sid,
                  name := some name, mobile := some mobile, age := some age }) := by
  refine ⟨rfl, ?_, ?_⟩
  · intro h
    show (match extractSid b with
      | none => st
      | some sid =>
        { st with sessionId := some sid, persisted := some sid,
                  name := some name, mobile := some mobile, age := some age }) = st
    rw [h]
  · intro sid h
    constructor
    · simp only [extractSid] at h
      split at h
      · rename_i ht
        rw [h] at ht
        intro hc
        rw [hc] at ht
        exact absurd ht (by decide)
      · cases h
    · show (match extractSid b with
        | none => st
        | some sid =>
          { st with sessionId := some sid, persisted := some sid,
                    name := some name, mobile := some mobile, age := some age }) = _
      rw [h]

/-- A populated client session, for the C10 witness: the create-session
success replaces the previously persisted id. -/
def priorSession : ClientSession :=
  { sessionId := some "OLD", persisted := some "OLD", name := none, mobile := none,
    age := none, documentType := some "PAN", documentNumber := some "X123" }

theorem C10_witness :
    createSubmit priorSession "Alice" "9876543210" 25 (some ⟨none, some "", some "S9"⟩) =
      { priorSession with sessionId := some "S9", persisted := some "S9",
                          name := some "Alice", mobile := some "9876543210",
                          age := some (25 : Int) } :=
  ((C10_create_session_atomicity priorSession "Alice" "9876543210" 25
    ⟨none, some "", some "S9"⟩).2.2 "S9" (by decide)).2

end SwiftKYC
